import Mathlib

/-!
# ScraperSage — formal model and verification

A shallow embedding of the ScraperSage library: a provider registry
(`create_ai_provider`, `get_supported_providers`, `get_available_models`),
a page fetcher (`fetch`), and the sequential pipeline orchestrator
(search → fetch-all → summarize-all → aggregate) exposed through the
construct-then-run entry point `scrape_and_summarize`.

The package's implementation modules (`scraper_sage.py`, `ai_providers.py`)
are referenced by `ScraperSage/__init__.py` but their bodies are not part of
the available source; the definitions below for those components are
modelled from the specification, as their doc comments state.  The
`__init__.py` export list and the `example_usage.py` call shape are taken
directly from the source.
-/

namespace ScraperSage

/-- A search hit: `{title, url, snippet}` as produced by the Search Client. -/
structure SearchResult where
  title : String
  url : String
  snippet : String
deriving DecidableEq, Repr

/-- Fetched page: the url, extracted text, and an optional fetch error. -/
structure PageContent where
  url : String
  text : String
  fetch_error : Option String
deriving DecidableEq, Repr

/-- One per-page summary: the page's url and its summary text. -/
structure SummaryRecord where
  url : String
  summary : String
deriving DecidableEq, Repr

/-- The terminal artifact of one pipeline run. -/
structure PipelineResult where
  query : String
  results : List SummaryRecord
  overall_summary : String
deriving DecidableEq, Repr

/-- Error raised when a provider name is not in the known set. -/
structure UnsupportedProviderError where
  name : String
deriving DecidableEq, Repr

/-- Error raised by the external search API (network or quota failure). -/
structure SearchAPIError where
  message : String
deriving DecidableEq, Repr

/-- Error raised by an external AI provider API call. -/
structure ProviderAPIError where
  message : String
deriving DecidableEq, Repr

/-- Errors a pipeline run can surface to the caller: only search errors and
provider errors — fetch failures have no constructor here, they are recorded
in `PageContent.fetch_error` and never raised. -/
inductive PipelineError where
  | search : SearchAPIError → PipelineError
  | provider : ProviderAPIError → PipelineError
deriving DecidableEq, Repr

/-- Modelled from the spec: an AI provider client holds the selected
provider name, model and api key, and wraps one summarization API. -/
structure AIProviderClient where
  provider : String
  model : String
  api_key : String
deriving DecidableEq, Repr

/-- Modelled from the spec: the known provider identifiers of the registry
("gemini", "openai", "openrouter", "deepseek"). -/
def get_supported_providers : List String :=
  ["gemini", "openai", "openrouter", "deepseek"]

/-- Modelled from the spec: `create_ai_provider(name, model, api_key)`
returns an `AIProviderClient` when `name` is in the known set and fails
with `UnsupportedProviderError` otherwise.  Pure lookup, no side effects. -/
def create_ai_provider (name model api_key : String) :
    Except UnsupportedProviderError AIProviderClient :=
  if name ∈ get_supported_providers then
    Except.ok ⟨name, model, api_key⟩
  else
    Except.error ⟨name⟩

/-- Modelled from the spec: the model identifiers of each supported
provider; the gemini list contains the literal id "gemini-2.0-flash".
Unknown names fail with `UnsupportedProviderError`. -/
def get_available_models (name : String) :
    Except UnsupportedProviderError (List String) :=
  if name = "gemini" then
    Except.ok ["gemini-2.0-flash", "gemini-1.5-flash", "gemini-1.5-pro"]
  else if name = "openai" then
    Except.ok ["gpt-4o", "gpt-4o-mini"]
  else if name = "openrouter" then
    Except.ok ["openrouter/auto"]
  else if name = "deepseek" then
    Except.ok ["deepseek-chat"]
  else
    Except.error ⟨name⟩

/-- Outcome of one raw HTTP retrieval: a timeout, or a response with a
status code, a content type and a body. -/
inductive HttpOutcome where
  | timeout : HttpOutcome
  | response : Nat → String → String → HttpOutcome
deriving DecidableEq, Repr

/-- A content type counts as text when it starts with "text/". -/
def isTextContentType (ct : String) : Bool :=
  ct.take 5 == "text/"

/-- The external world of one run: the search API, the raw HTTP layer used
by the page fetcher, and the AI provider's summarization endpoint.  All
external calls are deterministic oracles for the scope of one run. -/
structure World where
  search : String → Nat → Except SearchAPIError (List SearchResult)
  http : String → Nat → HttpOutcome
  extract : String → String
  summarize : String → Except ProviderAPIError String

/-- Modelled from the spec: `fetch(url, timeout)` always returns a
`PageContent`; on timeout, non-200 status, or non-text content type it
sets `fetch_error` instead of raising, otherwise it returns the extracted
readable text of the body. -/
def fetch (w : World) (url : String) (timeout : Nat) : PageContent :=
  match w.http url timeout with
  | HttpOutcome.timeout => ⟨url, "", some "timeout"⟩
  | HttpOutcome.response status ct body =>
    if status ≠ 200 then
      ⟨url, "", some ("HTTP error " ++ toString status)⟩
    else if ¬ isTextContentType ct then
      ⟨url, "", some ("unsupported content type " ++ ct)⟩
    else
      ⟨url, w.extract body, none⟩

/-- The per-call HTTP timeout used by the orchestrator, in seconds. -/
def fetchTimeout : Nat := 10

/-- FETCH-ALL stage: fetch up to `max_urls` pages, one url at a time, in
the order the search results arrived. -/
def pagesOf (w : World) (srs : List SearchResult) (max_urls timeout : Nat) :
    List PageContent :=
  (srs.take max_urls).map (fun s => fetch w s.url timeout)

/-- The usable pages of a run: the fetched pages whose `fetch_error` is
unset, in fetch order. -/
def usableOf (w : World) (srs : List SearchResult) (max_urls timeout : Nat) :
    List PageContent :=
  (pagesOf w srs max_urls timeout).filter (fun p => p.fetch_error.isNone)

/-- SUMMARIZE-ALL stage on one page: a successful provider call yields the
page's `SummaryRecord`; a `ProviderAPIError` drops the page. -/
def summarizePage (w : World) (p : PageContent) : Option SummaryRecord :=
  match w.summarize p.text with
  | Except.ok s => some ⟨p.url, s⟩
  | Except.error _ => none

/-- The per-page summary records of a run, in page order, failed provider
calls dropped. -/
def recsOf (w : World) (srs : List SearchResult) (max_urls timeout : Nat) :
    List SummaryRecord :=
  (usableOf w srs max_urls timeout).filterMap (summarizePage w)

/-- AGGREGATE stage input: the concatenation of the per-page summaries. -/
def aggregateInput (recs : List SummaryRecord) : String :=
  String.intercalate "\n" (recs.map (fun r => r.summary))

/-- Modelled from the spec: the pipeline orchestrator.  SEARCH →
FETCH-ALL → SUMMARIZE-ALL → AGGREGATE, sequential and order-preserving.
A `SearchAPIError` aborts the run; zero usable summaries give the empty
result with `overall_summary = ""`; otherwise one more provider call
produces `overall_summary`, and its `ProviderAPIError` is surfaced. -/
def runPipeline (w : World) (query : String)
    (max_results max_urls timeout : Nat) :
    Except PipelineError PipelineResult :=
  match w.search query max_results with
  | Except.error e => Except.error (PipelineError.search e)
  | Except.ok srs =>
    let recs := recsOf w srs max_urls timeout
    if recs.isEmpty then
      Except.ok ⟨query, [], ""⟩
    else
      match w.summarize (aggregateInput recs) with
      | Except.error e => Except.error (PipelineError.provider e)
      | Except.ok overall => Except.ok ⟨query, recs, overall⟩

/-- Modelled from the spec: the configuration surface of one run.  Each
documented key may be present or missing; `unrecognized` stands for the
unrecognized keys of the mapping, which the run ignores. -/
structure RunParams where
  query : Option String
  max_results : Option Nat
  max_urls : Option Nat
  save_to_file : Option Bool
  provider : Option String
  model : Option String
  unrecognized : List String
deriving DecidableEq, Repr

/-- A fully resolved configuration, after defaulting. -/
structure Config where
  query : String
  max_results : Nat
  max_urls : Nat
  save_to_file : Bool
  provider : String
  model : String
deriving DecidableEq, Repr

/-- Modelled from the spec: default for a missing `query` key. -/
def default_query : String := ""

/-- Modelled from the spec: default for a missing `max_results` key. -/
def default_max_results : Nat := 10

/-- Modelled from the spec: default for a missing `max_urls` key. -/
def default_max_urls : Nat := 5

/-- Modelled from the spec: default for a missing `save_to_file` key. -/
def default_save_to_file : Bool := false

/-- Modelled from the spec: default for a missing `provider` key. -/
def default_provider : String := "gemini"

/-- Modelled from the spec: default for a missing `model` key. -/
def default_model : String := "gemini-2.0-flash"

/-- Modelled from the spec: missing keys take their documented defaults;
the `unrecognized` keys play no part in the resolved configuration. -/
def resolveConfig (p : RunParams) : Config :=
  ⟨p.query.getD default_query,
   p.max_results.getD default_max_results,
   p.max_urls.getD default_max_urls,
   p.save_to_file.getD default_save_to_file,
   p.provider.getD default_provider,
   p.model.getD default_model⟩

/-- Replace the unrecognized-key list of a parameter mapping, leaving every
documented key unchanged. -/
def RunParams.withUnrecognized (p : RunParams) (ks : List String) : RunParams :=
  ⟨p.query, p.max_results, p.max_urls, p.save_to_file, p.provider, p.model, ks⟩

/-- The scraper object built by the package entry point: it holds the two
credential arguments of `example_usage.py` (`serper_api_key`,
`gemini_api_key`). -/
structure Scraper where
  serper_api_key : String
  gemini_api_key : String
deriving DecidableEq, Repr

/-- The package entry point as exercised by `example_usage.py`:
`scrape_and_summarize(serper_api_key=…, gemini_api_key=…)` constructs the
scraper object; the pipeline itself is executed by its `run` method. -/
def scrape_and_summarize (serper_api_key gemini_api_key : String) : Scraper :=
  ⟨serper_api_key, gemini_api_key⟩

/-- Modelled from the spec: the scraper's `run(params)` method resolves the
parameter mapping against the defaults and executes the pipeline; the
credentials the scraper holds feed the external calls inside `w`. -/
def Scraper.run (_c : Scraper) (w : World) (p : RunParams) :
    Except PipelineError PipelineResult :=
  runPipeline w (resolveConfig p).query (resolveConfig p).max_results
    (resolveConfig p).max_urls fetchTimeout

/-- A JSON value: strings, arrays and objects suffice for the pipeline's
output structure. -/
inductive Json where
  | str : String → Json
  | arr : List Json → Json
  | obj : List (String × Json) → Json

/-- The keys of a JSON object, in order; `[]` on non-objects. -/
def Json.objKeys : Json → List String
  | Json.obj l => l.map (fun kv => kv.1)
  | _ => []

/-- Serialize one `SummaryRecord` to JSON. -/
def SummaryRecord.toJson (r : SummaryRecord) : Json :=
  Json.obj [("url", Json.str r.url), ("summary", Json.str r.summary)]

/-- Serialize a `PipelineResult` to JSON: an object with exactly the keys
`query`, `results` and `overall_summary`. -/
def PipelineResult.toJson (r : PipelineResult) : Json :=
  Json.obj [("query", Json.str r.query),
    ("results", Json.arr (r.results.map SummaryRecord.toJson)),
    ("overall_summary", Json.str r.overall_summary)]

/-- Parse one `SummaryRecord` back from JSON. -/
def SummaryRecord.fromJson : Json → Option SummaryRecord
  | Json.obj [("url", Json.str u), ("summary", Json.str s)] => some ⟨u, s⟩
  | _ => none

/-- Parse a `PipelineResult` back from JSON. -/
def PipelineResult.fromJson : Json → Option PipelineResult
  | Json.obj [("query", Json.str q), ("results", Json.arr l),
      ("overall_summary", Json.str o)] =>
    match l.mapM SummaryRecord.fromJson with
    | some recs => some ⟨q, recs, o⟩
    | none => none
  | _ => none

/-- The export list of `ScraperSage/__init__.py` (`__all__`), taken
directly from the source. -/
def scraperSageExports : List String :=
  ["scrape_and_summarize", "create_ai_provider", "get_supported_providers",
   "get_available_models"]

/-- A concrete world whose search yields two results, every fetch succeeds
with a text response, and the provider always answers "summary". -/
def okWorld : World where
  search := fun _ _ => Except.ok
    [⟨"t1", "http://a", "s1"⟩, ⟨"t2", "http://b", "s2"⟩]
  http := fun _ _ => HttpOutcome.response 200 "text/html" "body"
  extract := fun b => b
  summarize := fun _ => Except.ok "summary"

/-- The search results `okWorld` returns. -/
def okSearchResults : List SearchResult :=
  [⟨"t1", "http://a", "s1"⟩, ⟨"t2", "http://b", "s2"⟩]

/-- The pipeline result of running query "q" against `okWorld`. -/
def okResult : PipelineResult :=
  ⟨"q", [⟨"http://a", "summary"⟩, ⟨"http://b", "summary"⟩], "summary"⟩

/-- A concrete world in which every HTTP retrieval times out. -/
def failWorld : World where
  search := fun _ _ => Except.ok [⟨"t1", "http://a", "s1"⟩]
  http := fun _ _ => HttpOutcome.timeout
  extract := fun b => b
  summarize := fun _ => Except.ok "summary"

/-- A concrete world whose search API fails with a quota error. -/
def errSearchWorld : World where
  search := fun _ _ => Except.error ⟨"quota"⟩
  http := fun _ _ => HttpOutcome.timeout
  extract := fun b => b
  summarize := fun _ => Except.ok "summary"

/-- A concrete world for the "AI in healthcare" scenario: one search hit,
a successful text fetch, and a provider that always answers "summary". -/
def scenarioWorld : World where
  search := fun _ _ => Except.ok [⟨"t1", "http://a", "s1"⟩]
  http := fun _ _ => HttpOutcome.response 200 "text/html" "body"
  extract := fun b => b
  summarize := fun _ => Except.ok "summary"

/-- The parameter mapping of the documented scenario: query
"AI in healthcare", `max_results = 5`, `save_to_file = False`, every other
key missing. -/
def scenarioParams : RunParams :=
  ⟨some "AI in healthcare", some 5, none, some false, none, none, []⟩

end ScraperSage

/-! ## Helper lemmas -/

namespace ScraperSage

/-- The fetcher always reports back the url it was asked for. -/
theorem fetch_url (w : World) (url : String) (timeout : Nat) :
    (fetch w url timeout).url = url := by
  unfold fetch
  cases w.http url timeout with
  | timeout => rfl
  | response status ct body =>
    by_cases h1 : status ≠ 200 <;> by_cases h2 : ¬ isTextContentType ct <;>
      simp [h1, h2]

/-- A summary record produced from a page carries that page's url. -/
theorem summarizePage_url (w : World) (p : PageContent) (r : SummaryRecord)
    (h : summarizePage w p = some r) : r.url = p.url := by
  unfold summarizePage at h
  cases hs : w.summarize p.text with
  | ok s => rw [hs] at h; cases h; rfl
  | error e => rw [hs] at h; cases h

/-- The summarize stage yields at most `max_urls` records and at most one
record per search result. -/
theorem recsOf_length_le (w : World) (srs : List SearchResult) (mu t : Nat) :
    (recsOf w srs mu t).length ≤ min mu srs.length := by
  unfold recsOf usableOf pagesOf
  calc ((((srs.take mu).map (fun s => fetch w s.url t)).filter
          (fun p => p.fetch_error.isNone)).filterMap (summarizePage w)).length
      ≤ (((srs.take mu).map (fun s => fetch w s.url t)).filter
          (fun p => p.fetch_error.isNone)).length := List.length_filterMap_le _ _
    _ ≤ ((srs.take mu).map (fun s => fetch w s.url t)).length :=
        List.length_filter_le _ _
    _ = (srs.take mu).length := List.length_map _ _
    _ = min mu srs.length := List.length_take _ _

/-- Every record of the summarize stage carries the url of some search
result of the run. -/
theorem recsOf_url_mem (w : World) (srs : List SearchResult) (mu t : Nat) :
    ∀ r ∈ recsOf w srs mu t, ∃ s ∈ srs, r.url = s.url := by
  intro r hr
  unfold recsOf at hr
  rcases List.mem_filterMap.mp hr with ⟨p, hp, hsum⟩
  unfold usableOf at hp
  rcases List.mem_filter.mp hp with ⟨hpm, _⟩
  unfold pagesOf at hpm
  rcases List.mem_map.mp hpm with ⟨s, hsm, hfe⟩
  refine ⟨s, List.take_subset _ _ hsm, ?_⟩
  rw [summarizePage_url w p r hsum, ← hfe, fetch_url]

/-- Characterization of a successful pipeline run: the query is echoed,
the results are exactly the summarize stage's records, and the overall
summary comes from the aggregate provider call (or is empty when there is
nothing to aggregate). -/
theorem runPipeline_ok (w : World) (q : String) (mr mu t : Nat)
    (srs : List SearchResult) (r : PipelineResult)
    (hs : w.search q mr = Except.ok srs)
    (h : runPipeline w q mr mu t = Except.ok r) :
    r.query = q ∧ r.results = recsOf w srs mu t ∧
      (recsOf w srs mu t = [] → r.overall_summary = "") ∧
      (recsOf w srs mu t ≠ [] →
        w.summarize (aggregateInput (recsOf w srs mu t)) =
          Except.ok r.overall_summary) := by
  unfold runPipeline at h
  rw [hs] at h
  simp only at h
  split at h
  next hemp =>
    cases h
    rw [List.isEmpty_iff] at hemp
    exact ⟨rfl, hemp.symm, fun _ => rfl, fun hne => absurd hemp hne⟩
  next hemp =>
    rw [List.isEmpty_iff] at hemp
    split at h
    · cases h
    next hov =>
      cases h
      exact ⟨rfl, rfl, fun he => absurd he hemp, fun _ => hov⟩

/-- Mapping the record urls over the summarize stage is a sublist of the
page urls: dropping pages never reorders the survivors. -/
theorem map_url_filterMap_sublist (w : World) (l : List PageContent) :
    List.Sublist ((l.filterMap (summarizePage w)).map (fun r => r.url))
      (l.map (fun p => p.url)) := by
  induction l with
  | nil => simp
  | cons p rest ih =>
    rw [List.filterMap_cons]
    cases h : summarizePage w p with
    | none =>
      rw [List.map_cons]
      exact ih.cons _
    | some rec =>
      rw [List.map_cons, List.map_cons, summarizePage_url w p rec h]
      exact ih.cons₂ _

/-- The urls of the fetch stage are the urls of the first `max_urls`
search results, in order. -/
theorem pages_map_url (w : World) (srs : List SearchResult) (mu t : Nat) :
    (pagesOf w srs mu t).map (fun p => p.url) =
      (srs.take mu).map (fun s => s.url) := by
  unfold pagesOf
  rw [List.map_map]
  exact List.map_congr_left (fun s _ => fetch_url w s.url t)

/-- Parsing back the serialization of a record list recovers the list. -/
theorem mapM_fromJson_toJson (l : List SummaryRecord) :
    (l.map SummaryRecord.toJson).mapM SummaryRecord.fromJson = some l := by
  induction l with
  | nil => rfl
  | cons r rest ih =>
    rw [List.map_cons, List.mapM_cons]
    have h1 : SummaryRecord.fromJson (SummaryRecord.toJson r) = some r := rfl
    rw [h1, ih]
    rfl

end ScraperSage

/-! ## Claim theorems -/

namespace ScraperSage

/-- C1: For every pipeline run, the returned `PipelineResult` satisfies
`len(results) ≤ max_urls`, `len(results)` is at most the number of search
results returned by the Search Client for that run, and every
`SummaryRecord.url` in `results` is the url of some `SearchResult` of that
same run — no fabricated URLs. -/
theorem scrape_results_bounded (w : World) (q : String) (mr mu t : Nat)
    (srs : List SearchResult) (r : PipelineResult)
    (hs : w.search q mr = Except.ok srs)
    (h : runPipeline w q mr mu t = Except.ok r) :
    r.results.length ≤ mu ∧ r.results.length ≤ srs.length ∧
      ∀ rec ∈ r.results, ∃ s ∈ srs, rec.url = s.url := by
  unfold runPipeline at h
  rw [hs] at h
  simp only at h
  split at h
  · cases h
    simp
  · split at h
    · cases h
    · cases h
      refine ⟨?_, ?_, recsOf_url_mem w srs mu t⟩
      · exact le_trans (recsOf_length_le w srs mu t) (min_le_left _ _)
      · exact le_trans (recsOf_length_le w srs mu t) (min_le_right _ _)

/-- Witness for C1: the bounds hold on a concrete run against `okWorld`
with `max_results = 5` and `max_urls = 8`. -/
theorem scrape_results_bounded_witness :
    okResult.results.length ≤ 8 ∧
      okResult.results.length ≤ okSearchResults.length ∧
      ∀ rec ∈ okResult.results, ∃ s ∈ okSearchResults, rec.url = s.url :=
  scrape_results_bounded okWorld "q" 5 8 10 okSearchResults okResult
    (by rfl) (by rfl)

/-- C2: in every run whose page fetches all fail (zero usable pages), the
orchestrator returns `results = []` and `overall_summary = ""`, and no
exception reaches the caller — the run ends in `Except.ok`. -/
theorem all_fetches_fail_empty_result (w : World) (q : String)
    (mr mu t : Nat) (srs : List SearchResult)
    (hs : w.search q mr = Except.ok srs)
    (hf : ∀ s ∈ srs.take mu, ((fetch w s.url t).fetch_error).isSome = true) :
    runPipeline w q mr mu t = Except.ok ⟨q, [], ""⟩ := by
  have husable : usableOf w srs mu t = [] := by
    unfold usableOf pagesOf
    rw [List.filter_eq_nil_iff]
    intro p hp
    rcases List.mem_map.mp hp with ⟨s, hsm, hfe⟩
    have hfail := hf s hsm
    rw [← hfe]
    cases hh : (fetch w s.url t).fetch_error with
    | none => rw [hh] at hfail; simp at hfail
    | some e => simp [Option.isNone, hh]
  have hrecs : recsOf w srs mu t = [] := by
    unfold recsOf
    rw [husable]
    rfl
  unfold runPipeline
  rw [hs]
  simp only [hrecs, List.isEmpty_nil]
  rfl

/-- Witness for C2: against `failWorld`, where every HTTP call times out,
the run returns the empty result. -/
theorem all_fetches_fail_empty_result_witness :
    runPipeline failWorld "q" 5 8 10 = Except.ok ⟨"q", [], ""⟩ :=
  all_fetches_fail_empty_result failWorld "q" 5 8 10
    [⟨"t1", "http://a", "s1"⟩] (by rfl) (by decide)

/-- C3: for every name in the supported set, `create_ai_provider` returns
a client; for every other string it fails with `UnsupportedProviderError`.
The lookup is a pure function of its arguments. -/
theorem create_ai_provider_contract (name model api_key : String) :
    (name ∈ get_supported_providers →
      create_ai_provider name model api_key =
        Except.ok ⟨name, model, api_key⟩) ∧
    (name ∉ get_supported_providers →
      create_ai_provider name model api_key = Except.error ⟨name⟩) := by
  constructor
  · intro h
    unfold create_ai_provider
    rw [if_pos h]
  · intro h
    unfold create_ai_provider
    rw [if_neg h]

/-- Witness for C3: "gemini" yields a client and "claude" is rejected. -/
theorem create_ai_provider_contract_witness :
    create_ai_provider "gemini" "m" "k" = Except.ok ⟨"gemini", "m", "k"⟩ ∧
    create_ai_provider "claude" "m" "k" = Except.error ⟨"claude"⟩ :=
  ⟨(create_ai_provider_contract "gemini" "m" "k").1 (by decide),
   (create_ai_provider_contract "claude" "m" "k").2 (by decide)⟩

/-- C4: the orchestrator's error propagation: a `SearchAPIError` aborts
the run and is surfaced; a `ProviderAPIError` of the overall-summary call
is surfaced; a per-page `ProviderAPIError` only drops that page while every
successfully summarized usable page still contributes its record; and an
error outcome is only ever caused by the search call or the overall-summary
call — never by a fetch failure. -/
theorem error_taxonomy (w : World) (q : String) (mr mu t : Nat) :
    (∀ e, w.search q mr = Except.error e →
      runPipeline w q mr mu t = Except.error (PipelineError.search e)) ∧
    (∀ srs, w.search q mr = Except.ok srs →
      recsOf w srs mu t ≠ [] →
      ∀ pe, w.summarize (aggregateInput (recsOf w srs mu t)) =
          Except.error pe →
        runPipeline w q mr mu t = Except.error (PipelineError.provider pe)) ∧
    (∀ srs r, w.search q mr = Except.ok srs →
      runPipeline w q mr mu t = Except.ok r →
      (∀ rec ∈ r.results, ∃ p ∈ usableOf w srs mu t,
        w.summarize p.text = Except.ok rec.summary ∧ rec.url = p.url) ∧
      (∀ p ∈ usableOf w srs mu t, ∀ s, w.summarize p.text = Except.ok s →
        SummaryRecord.mk p.url s ∈ r.results)) ∧
    (∀ err, runPipeline w q mr mu t = Except.error err →
      (∃ e, w.search q mr = Except.error e ∧ err = PipelineError.search e) ∨
      (∃ srs pe, w.search q mr = Except.ok srs ∧
        w.summarize (aggregateInput (recsOf w srs mu t)) = Except.error pe ∧
        err = PipelineError.provider pe)) := by
  refine ⟨?_, ?_, ?_, ?_⟩
  · intro e he
    unfold runPipeline
    rw [he]
  · intro srs hs hne pe hpe
    unfold runPipeline
    rw [hs]
    simp only
    rw [if_neg (by simpa [List.isEmpty_iff] using hne)]
    rw [hpe]
  · intro srs r hs h
    have hres := (runPipeline_ok w q mr mu t srs r hs h).2.1
    constructor
    · intro rec hrec
      rw [hres] at hrec
      unfold recsOf at hrec
      rcases List.mem_filterMap.mp hrec with ⟨p, hp, hsum⟩
      refine ⟨p, hp, ?_, ?_⟩
      · unfold summarizePage at hsum
        cases hws : w.summarize p.text with
        | ok s => rw [hws] at hsum; cases hsum; rfl
        | error e => rw [hws] at hsum; cases hsum
      · unfold summarizePage at hsum
        cases hws : w.summarize p.text with
        | ok s => rw [hws] at hsum; cases hsum; rfl
        | error e => rw [hws] at hsum; cases hsum
    · intro p hp s hws
      rw [hres]
      unfold recsOf
      exact List.mem_filterMap.mpr ⟨p, hp, by unfold summarizePage; rw [hws]⟩
  · intro err herr
    cases hsearch : w.search q mr with
    | error e =>
      left
      refine ⟨e, rfl, ?_⟩
      unfold runPipeline at herr
      rw [hsearch] at herr
      cases herr
      rfl
    | ok srs =>
      right
      unfold runPipeline at herr
      rw [hsearch] at herr
      simp only at herr
      split at herr
      · cases herr
      · split at herr
        next pe hov =>
          cases herr
          exact ⟨srs, pe, rfl, hov, rfl⟩
        · cases herr

/-- Witness for C4: against `errSearchWorld`, whose search API fails with
a quota error, the run surfaces exactly that `SearchAPIError`. -/
theorem error_taxonomy_witness :
    runPipeline errSearchWorld "q" 5 8 10 =
      Except.error (PipelineError.search ⟨"quota"⟩) :=
  (error_taxonomy errSearchWorld "q" 5 8 10).1 ⟨"quota"⟩ (by rfl)

/-- C5: `fetch(url, timeout)` always returns a `PageContent` for the
requested url; on timeout, non-200 status, or non-text content type it
sets `fetch_error` instead of raising; and the orchestrator skips such
pages when summarizing — every record of a successful run comes from a
fetched page whose `fetch_error` is unset. -/
theorem fetch_contract (w : World) (url : String) (t : Nat) :
    (fetch w url t).url = url ∧
    (w.http url t = HttpOutcome.timeout →
      ((fetch w url t).fetch_error).isSome = true) ∧
    (∀ status ct body, w.http url t = HttpOutcome.response status ct body →
      status ≠ 200 → ((fetch w url t).fetch_error).isSome = true) ∧
    (∀ status ct body, w.http url t = HttpOutcome.response status ct body →
      isTextContentType ct = false →
      ((fetch w url t).fetch_error).isSome = true) ∧
    (∀ q mr mu srs r, w.search q mr = Except.ok srs →
      runPipeline w q mr mu t = Except.ok r →
      ∀ rec ∈ r.results, ∃ p ∈ pagesOf w srs mu t,
        p.fetch_error = none ∧ rec.url = p.url) := by
  refine ⟨fetch_url w url t, ?_, ?_, ?_, ?_⟩
  · intro h
    unfold fetch
    rw [h]
    rfl
  · intro status ct body h hst
    unfold fetch
    rw [h]
    dsimp only
    rw [if_pos hst]
    rfl
  · intro status ct body h hct
    unfold fetch
    rw [h]
    dsimp only
    by_cases hst : status ≠ 200
    · rw [if_pos hst]
      rfl
    · rw [if_neg hst, if_pos (by simp [hct])]
      rfl
  · intro q mr mu srs r hs h rec hrec
    have hres := (runPipeline_ok w q mr mu t srs r hs h).2.1
    rw [hres] at hrec
    unfold recsOf at hrec
    rcases List.mem_filterMap.mp hrec with ⟨p, hp, hsum⟩
    unfold usableOf at hp
    rcases List.mem_filter.mp hp with ⟨hpm, hpe⟩
    refine ⟨p, hpm, ?_, summarizePage_url w p rec hsum⟩
    simpa [Option.isNone_iff_eq_none] using hpe

/-- Witness for C5: against `failWorld`, a timed-out fetch reports a
`fetch_error`. -/
theorem fetch_contract_witness :
    ((fetch failWorld "http://a" 10).fetch_error).isSome = true :=
  (fetch_contract failWorld "http://a" 10).2.1 (by rfl)

/-- C6: the pipeline is sequential and order-preserving: the records of a
successful run carry the urls of the first `max_urls` search results as a
sublist — same order as the Search Client returned them, failed pages
skipped — and hence a sublist of all the run's search-result urls. -/
theorem pipeline_order_preserving (w : World) (q : String) (mr mu t : Nat)
    (srs : List SearchResult) (r : PipelineResult)
    (hs : w.search q mr = Except.ok srs)
    (h : runPipeline w q mr mu t = Except.ok r) :
    List.Sublist (r.results.map (fun rec => rec.url))
      ((srs.take mu).map (fun s => s.url)) ∧
    List.Sublist (r.results.map (fun rec => rec.url))
      (srs.map (fun s => s.url)) := by
  have hres := (runPipeline_ok w q mr mu t srs r hs h).2.1
  have h1 : List.Sublist (r.results.map (fun rec => rec.url))
      ((srs.take mu).map (fun s => s.url)) := by
    rw [hres]
    unfold recsOf
    have step1 := map_url_filterMap_sublist w (usableOf w srs mu t)
    have step2 : List.Sublist ((usableOf w srs mu t).map (fun p => p.url))
        ((pagesOf w srs mu t).map (fun p => p.url)) := by
      unfold usableOf
      exact (List.filter_sublist _).map _
    rw [pages_map_url w srs mu t] at step2
    exact step1.trans step2
  exact ⟨h1, h1.trans ((List.take_sublist mu srs).map _)⟩

/-- Witness for C6: on the concrete `okWorld` run the record urls embed in
order into the search-result urls. -/
theorem pipeline_order_preserving_witness :
    List.Sublist (okResult.results.map (fun rec => rec.url))
      ((okSearchResults.take 8).map (fun s => s.url)) ∧
    List.Sublist (okResult.results.map (fun rec => rec.url))
      (okSearchResults.map (fun s => s.url)) :=
  pipeline_order_preserving okWorld "q" 5 8 10 okSearchResults okResult
    (by rfl) (by rfl)

/-- C7: `get_available_models("gemini")` returns a non-empty ordered
sequence containing the literal model id "gemini-2.0-flash"; for every
name outside the known provider set it fails with
`UnsupportedProviderError`. -/
theorem get_available_models_contract :
    (∃ l, get_available_models "gemini" = Except.ok l ∧ l ≠ [] ∧
      "gemini-2.0-flash" ∈ l) ∧
    (∀ name, name ∉ get_supported_providers →
      get_available_models name = Except.error ⟨name⟩) := by
  constructor
  · exact ⟨_, rfl, by decide, by decide⟩
  · intro name h
    unfold get_available_models
    unfold get_supported_providers at h
    simp only [List.mem_cons, List.not_mem_nil, or_false] at h
    push_neg at h
    rw [if_neg h.1, if_neg h.2.1, if_neg h.2.2.1, if_neg h.2.2.2]

/-- Witness for C7: the unknown name "claude" is rejected. -/
theorem get_available_models_contract_witness :
    get_available_models "claude" = Except.error ⟨"claude"⟩ :=
  get_available_models_contract.2 "claude" (by decide)

end ScraperSage

namespace ScraperSage

/-- C8: unrecognized configuration keys are ignored and missing documented
keys take their defaults; the scenario run (query "AI in healthcare",
`max_results = 5`, `save_to_file = False`) yields a mapping whose keys are
exactly `query`, `results`, `overall_summary`, with `overall_summary`
non-empty whenever at least one page fetch succeeds (and the provider
answers every call with non-empty text). -/
theorem run_config_contract (c : Scraper) (w : World) :
    (∀ p extra, Scraper.run c w (p.withUnrecognized extra) =
      Scraper.run c w p) ∧
    (resolveConfig ⟨none, none, none, none, none, none, []⟩ =
      ⟨default_query, default_max_results, default_max_urls,
       default_save_to_file, default_provider, default_model⟩) ∧
    (∀ srs r, w.search "AI in healthcare" 5 = Except.ok srs →
      Scraper.run c w scenarioParams = Except.ok r →
      (PipelineResult.toJson r).objKeys =
        ["query", "results", "overall_summary"] ∧
      ((∃ s ∈ srs.take default_max_urls,
          (fetch w s.url fetchTimeout).fetch_error = none) →
       (∀ txt, ∃ o, w.summarize txt = Except.ok o ∧ o ≠ "") →
       r.overall_summary ≠ "")) := by
  refine ⟨fun p extra => rfl, rfl, ?_⟩
  intro srs r hs h
  constructor
  · rfl
  · intro hfetch hsumm
    have hrun : runPipeline w "AI in healthcare" 5 default_max_urls
        fetchTimeout = Except.ok r := h
    rcases hfetch with ⟨s, hsm, hfe⟩
    have hpu : fetch w s.url fetchTimeout ∈
        usableOf w srs default_max_urls fetchTimeout := by
      unfold usableOf pagesOf
      refine List.mem_filter.mpr ⟨List.mem_map.mpr ⟨s, hsm, rfl⟩, ?_⟩
      simp [hfe]
    rcases hsumm (fetch w s.url fetchTimeout).text with ⟨o, ho, hono⟩
    have hrec : SummaryRecord.mk (fetch w s.url fetchTimeout).url o ∈
        recsOf w srs default_max_urls fetchTimeout := by
      unfold recsOf
      exact List.mem_filterMap.mpr ⟨_, hpu, by unfold summarizePage; rw [ho]⟩
    have hne : recsOf w srs default_max_urls fetchTimeout ≠ [] := by
      intro hnil
      rw [hnil] at hrec
      exact absurd hrec (List.not_mem_nil _)
    have hchar := (runPipeline_ok w "AI in healthcare" 5 default_max_urls
      fetchTimeout srs r hs hrun).2.2.2 hne
    rcases hsumm (aggregateInput (recsOf w srs default_max_urls fetchTimeout))
      with ⟨o2, ho2, ho2ne⟩
    rw [ho2] at hchar
    cases hchar
    exact ho2ne

/-- Witness for C8: on the concrete scenario run against `scenarioWorld`
the result object carries exactly the three keys and a non-empty overall
summary. -/
theorem run_config_contract_witness :
    (PipelineResult.toJson
        ⟨"AI in healthcare", [⟨"http://a", "summary"⟩], "summary"⟩).objKeys =
      ["query", "results", "overall_summary"] ∧
    (PipelineResult.mk "AI in healthcare" [⟨"http://a", "summary"⟩]
        "summary").overall_summary ≠ "" := by
  have h := (run_config_contract ⟨"sk", "gk"⟩ scenarioWorld).2.2
    [⟨"t1", "http://a", "s1"⟩]
    ⟨"AI in healthcare", [⟨"http://a", "summary"⟩], "summary"⟩
    (by rfl) (by rfl)
  exact ⟨h.1, h.2 ⟨⟨"t1", "http://a", "s1"⟩, by decide, by rfl⟩
    (fun txt => ⟨"summary", rfl, by decide⟩)⟩

/-- C9: serializing a `PipelineResult` to JSON and parsing it back yields
the original structure — the JSON round trip is the identity. -/
theorem pipeline_result_json_roundtrip (r : PipelineResult) :
    PipelineResult.fromJson (PipelineResult.toJson r) = some r := by
  have h : PipelineResult.fromJson (PipelineResult.toJson r) =
      match (r.results.map SummaryRecord.toJson).mapM
          SummaryRecord.fromJson with
      | some recs => some ⟨r.query, recs, r.overall_summary⟩
      | none => none := rfl
  rw [h, mapM_fromJson_toJson]

/-- C10: the public entry point is construct-then-run:
`scrape_and_summarize(serper_api_key, gemini_api_key)` builds the scraper
object whose `run` method executes the pipeline; and the package exports
(`__all__`) are exactly the four names `scrape_and_summarize`,
`create_ai_provider`, `get_supported_providers`, `get_available_models`. -/
theorem public_api_construct_then_run :
    scraperSageExports = ["scrape_and_summarize", "create_ai_provider",
      "get_supported_providers", "get_available_models"] ∧
    (∀ sk gk w p, Scraper.run (scrape_and_summarize sk gk) w p =
      runPipeline w (resolveConfig p).query (resolveConfig p).max_results
        (resolveConfig p).max_urls fetchTimeout) :=
  ⟨rfl, fun _ _ _ _ => rfl⟩

end ScraperSage
